import Mathlib

/-
  Verification development for the niet2code zk-cli proof pipeline
  (src/zk-cli/src/main.rs and its collaborators).

  The CLI's Prove and Verify commands are embedded shallowly: u64 CLI
  arguments become Nat values with explicit `% 2^64` where Rust u64
  arithmetic wraps, BN254 scalar-field elements become Nat residues
  modulo the field characteristic, fallible steps return Except, and
  the filesystem / stats side effects of a Prove run are made explicit
  as an event trace and an environment record.
-/

set_option autoImplicit false
set_option linter.unusedVariables false

namespace Niet2code

/-- Characteristic of the BN254 (alt_bn128) scalar field, the modulus of
`ark_bn254::Fr`. -/
def bn254r : Nat :=
  21888242871839275222246405745257275088548364400416034343698204186575808495617

/-- Canonical residue of a natural number as a BN254 scalar-field element,
the embedding of `Fr::from(n)`. -/
def frOf (n : Nat) : Nat := n % bn254r

/-- Multiplication in the BN254 scalar field (`a_fr * b_fr` in main.rs). -/
def frMul (x y : Nat) : Nat := (x * y) % bn254r

/-- Wrapping multiplication of two u64 values (`*a * *b` on u64 in
main.rs line 232, release overflow semantics). -/
def u64Mul (a b : Nat) : Nat := (a * b) % 2 ^ 64

/-- Modelled from the spec: the constraint circuit `prover::circuit::MulCircuit`
is declared in the prover crate, which is not under src/; per spec section 4.1
it holds three optional field elements and expresses the single relation
`a * b = c` with `c` bound as the one public input. -/
structure MulCircuit where
  a : Option Nat
  b : Option Nat
  c : Option Nat
deriving DecidableEq

/-- A circuit instance is fully assigned when all three witness slots are
populated (the shape used for proving, spec section 3). -/
def MulCircuit.fullyAssigned (ck : MulCircuit) : Bool :=
  ck.a.isSome && ck.b.isSome && ck.c.isSome

/-- Modelled from the spec: satisfaction of the circuit's one multiplication
constraint when synthesized with all three values present (spec section 4.1:
synthesis then checks `a*b == c` at the constraint level). -/
def MulCircuit.satisfiedB : MulCircuit → Bool
  | ⟨some a, some b, some c⟩ => frMul a b == c
  | _ => false

/-- Groth16 proving key; the `tag` records the setup randomness that binds a
key pair to one setup run (spec section 4.2: keys from distinct runs are
incompatible). -/
structure ProvingKey where
  tag : Nat
deriving DecidableEq

/-- Groth16 verifying key, bound to the same setup run as its proving key. -/
structure VerifyingKey where
  tag : Nat
deriving DecidableEq

/-- Verifier-optimized form of a verifying key (`prepare_verifying_key`). -/
structure PreparedVerifyingKey where
  tag : Nat
deriving DecidableEq

/-- A proving/verifying key pair as returned by parameter generation
(`generate_random_parameters_with_reduction`). -/
structure Groth16Params where
  pk : ProvingKey
  vk : VerifyingKey
deriving DecidableEq

/-- A Groth16 proof, modelled symbolically: it records the setup run it was
produced under and the single public input it attests to (spec section 3:
a proof is bound to a specific (verifying key, public input) pair). -/
structure Proof where
  tag : Nat
  publicInput : Nat
deriving DecidableEq

/-- Errors surfaced by the constraint-system / proving layer. -/
inductive SynthErr where
  | unsatisfied
  | assignmentMissing
  | malformedInputs
deriving DecidableEq

/-- Modelled from the spec: Groth16 parameter generation (spec section 4.2)
consumes a circuit shape and fresh randomness and derives a key pair bound
to that setup run. -/
def groth16Setup (shape : MulCircuit) (rng : Nat) : Groth16Params :=
  let _ := shape
  { pk := { tag := rng }, vk := { tag := rng } }

/-- Modelled from the spec: Groth16 proof generation (spec section 4.3)
requires a fully assigned circuit whose constraints are satisfied; the
resulting proof is bound to the proving key's setup run and to the public
input `c`. -/
def groth16Prove (pk : ProvingKey) (circuit : MulCircuit) (rng : Nat) :
    Except SynthErr Proof :=
  let _ := rng
  match circuit with
  | ⟨some a, some b, some c⟩ =>
      if frMul a b = c then .ok { tag := pk.tag, publicInput := c }
      else .error .unsatisfied
  | _ => .error .assignmentMissing

/-- `prepare_verifying_key`: a pure, deterministic transform of the
verifying key alone (spec section 4.4). -/
def prepare_verifying_key (vk : VerifyingKey) : PreparedVerifyingKey :=
  { tag := vk.tag }

/-- Modelled from the spec: Groth16 proof verification (spec section 4.4)
checks the public-input arity and then returns the boolean outcome of the
cryptographic check; a pairing failure is the value `false`, not an error. -/
def groth16Verify (pvk : PreparedVerifyingKey) (proof : Proof)
    (inputs : List Nat) : Except SynthErr Bool :=
  if inputs.length = 1 then
    .ok (decide (proof.tag = pvk.tag) && decide (inputs = [proof.publicInput]))
  else
    .error .malformedInputs

/-- Serialization variant of an artifact encoding (spec section 4.5). -/
inductive Compression where
  | compressed
  | uncompressed
deriving DecidableEq

/-- Header byte distinguishing the two serialization variants. -/
def Compression.header : Compression → Nat
  | .compressed => 0
  | .uncompressed => 1

/-- Modelled from the spec: byte encoding of a proof in a given variant
(spec section 4.5: each artifact round-trips through a canonical byte
encoding whose variant the encoder declares). -/
def serializeProof (mode : Compression) (pf : Proof) : List Nat :=
  [mode.header, pf.tag, pf.publicInput]

/-- Decoder for the proof encoding; rejects a wrong variant header,
malformed structure, or truncated bytes. -/
def deserializeProof (mode : Compression) (bytes : List Nat) : Option Proof :=
  match bytes with
  | [h, t, i] => if h = mode.header then some { tag := t, publicInput := i } else none
  | _ => none

/-- Modelled from the spec: byte encoding of a verifying key in a given
variant (spec section 4.5). -/
def serializeVk (mode : Compression) (vk : VerifyingKey) : List Nat :=
  [mode.header, vk.tag]

/-- Decoder for the verifying-key encoding; rejects a wrong variant header,
malformed structure, or truncated bytes. -/
def deserializeVk (mode : Compression) (bytes : List Nat) : Option VerifyingKey :=
  match bytes with
  | [h, t] => if h = mode.header then some { tag := t } else none
  | _ => none

/-- Modelled from the spec: byte encoding of a single field element, the
public-input artifact (spec section 6). -/
def serializeFr (v : Nat) : List Nat := [v % bn254r]

/-- Decoder for a field element; rejects non-canonical residues, malformed
structure, or truncated bytes (as `Fr::deserialize_uncompressed` does). -/
def deserializeFr (bytes : List Nat) : Option Nat :=
  match bytes with
  | [v] => if v < bn254r then some v else none
  | _ => none

/-- Variant the Verify command uses to decode the proof file
(`Proof::deserialize_compressed`, main.rs line 287). -/
def proofDecodeMode : Compression := .compressed

/-- Variant the Verify command uses to decode the public-input file
(`Fr::deserialize_uncompressed`, main.rs line 292). -/
def inputDecodeMode : Compression := .uncompressed

/-- Variant the Verify command uses to decode the verifying-key file
(`VerifyingKey::deserialize_uncompressed`, main.rs line 297). -/
def vkDecodeMode : Compression := .uncompressed

/-- Modelled from the spec: variant `prover::utils::save_proof` declares for
the proof file (spec section 6: proof file is compressed). -/
def proofEncodeMode : Compression := .compressed

/-- Modelled from the spec: variant `prover::utils::save_public_input`
declares for the public-input file (spec section 6: uncompressed). -/
def inputEncodeMode : Compression := .uncompressed

/-- Modelled from the spec: variant `prover::utils::save_verifying_key`
declares for the verifying-key file (spec section 6: uncompressed). -/
def vkEncodeMode : Compression := .uncompressed

/-- Errors the Verify command can surface. -/
inductive VerifyErr where
  | deserialization
  | arity
deriving DecidableEq

instance {ε α : Type} [DecidableEq ε] [DecidableEq α] : DecidableEq (Except ε α)
  | .error e, .error f =>
      if h : e = f then .isTrue (by rw [h]) else .isFalse (by simp [h])
  | .error _, .ok _ => .isFalse (by simp)
  | .ok _, .error _ => .isFalse (by simp)
  | .ok a, .ok b =>
      if h : a = b then .isTrue (by rw [h]) else .isFalse (by simp [h])

/-- Observable outcome of one Verify invocation: the command result plus a
trace bit recording whether the cryptographic check was ever invoked. -/
structure VerifyOutcome where
  result : Except VerifyErr Bool
  cryptoInvoked : Bool
deriving DecidableEq

/-- The Verify command (main.rs lines 278-310) on the contents of the three
input files: deserialize the proof (compressed), then the public input
(uncompressed), then the verifying key (uncompressed); each failure aborts
with a deserialization error via `?`; otherwise prepare the verifying key,
run the cryptographic check, and report its boolean outcome. -/
def verifyCmd (proofBytes inputBytes vkBytes : List Nat) : VerifyOutcome :=
  match deserializeProof proofDecodeMode proofBytes with
  | none => { result := .error .deserialization, cryptoInvoked := false }
  | some pf =>
    match deserializeFr inputBytes with
    | none => { result := .error .deserialization, cryptoInvoked := false }
    | some publicInput =>
      match deserializeVk vkDecodeMode vkBytes with
      | none => { result := .error .deserialization, cryptoInvoked := false }
      | some vk =>
        let pvk := prepare_verifying_key vk
        match groth16Verify pvk pf [publicInput] with
        | .ok valid => { result := .ok valid, cryptoInvoked := true }
        | .error _ => { result := .error .arity, cryptoInvoked := true }

/-- The builder-stats record persisted as `../builder_stats.json`
(`BuilderStats` in main.rs, lines 147-156). Rust `u32`/`u64` fields are Nat
values kept below their bound by the wrapping updates; the `f32`
`privacy_score` is modelled over ℚ (exact for the small scores arising from
the formula, whose rounding is not claim-relevant). -/
structure BuilderStats where
  deployments : Nat
  proofs_generated : Nat
  gas_saved_estimate : Nat
  networks : List String
  privacy_score : ℚ
  builder_alias : String
  wallet_address : String
deriving DecidableEq

/-- `Default::default()` for `BuilderStats`: zeroes, empty list, empty
strings. -/
def BuilderStats.default : BuilderStats :=
  { deployments := 0, proofs_generated := 0, gas_saved_estimate := 0,
    networks := [], privacy_score := 0, builder_alias := "",
    wallet_address := "" }

/-- `load_or_create_stats` (main.rs lines 158-163): the parse result of
`../builder_stats.json` when the file exists and deserializes, else the
default record (`unwrap_or_default`). The argument is the parse outcome of
the persisted file; `none` covers both a missing and an unparseable file. -/
def load_or_create_stats (file : Option BuilderStats) : BuilderStats :=
  file.getD BuilderStats.default

/-- The pure state update performed by `update_stats_for_proof` (main.rs
lines 171-186): increment the proof counter (u32, wrapping), add the gas
estimate (u64, wrapping), record an unseen network, and recompute the
derived privacy score from the updated fields, capped at 100. -/
def recordProofStats (stats : BuilderStats) (network : Option String) :
    BuilderStats :=
  let pg : Nat := (stats.proofs_generated + 1) % 2 ^ 32
  let gas : Nat := (stats.gas_saved_estimate + 75000) % 2 ^ 64
  let nets : List String :=
    match network with
    | some net => if stats.networks.contains net then stats.networks
                  else stats.networks ++ [net]
    | none => stats.networks
  let base_score : ℚ := (pg : ℚ) * 8
  let network_bonus : ℚ := (nets.length : ℚ) * 15
  let deployment_bonus : ℚ := (stats.deployments : ℚ) * 10
  { stats with
    proofs_generated := pg,
    gas_saved_estimate := gas,
    networks := nets,
    privacy_score := min (base_score + network_bonus + deployment_bonus) 100 }

/-- Errors a Prove invocation can surface. -/
inductive ProveErr where
  | synthesis (e : SynthErr)
  | artifactIo
  | statsIo
deriving DecidableEq

/-- `update_stats_for_proof` (main.rs lines 171-189): load the stats file,
apply the update, and persist it; a failing write of
`../builder_stats.json` surfaces as an error through `?`. Returns the new
persisted file content on success. -/
def update_stats_for_proof (network : Option String)
    (file : Option BuilderStats) (writeFails : Bool) :
    Except ProveErr BuilderStats :=
  let stats := recordProofStats (load_or_create_stats file) network
  if writeFails then .error .statsIo else .ok stats

/-- Side effects of a Prove run, in program order (main.rs lines 253-259). -/
inductive Event where
  | writeCalldata
  | writeProof
  | writePublicInput
  | writeVk
  | writeVkRs
  | recordStats
deriving DecidableEq

/-- The five artifact writes of a Prove run, in program order:
`save_calldata`, `save_proof`, `save_public_input`, `save_verifying_key`,
`export_verifying_key_to_rs`. -/
def artifactWrites : List Event :=
  [.writeCalldata, .writeProof, .writePublicInput, .writeVk, .writeVkRs]

/-- Environment of one Prove invocation: the fresh randomness consumed by
setup and proving, the parse outcome of the persisted stats file, and the
filesystem failures the run may hit (`failingSave = some k` means the
`k`-th artifact write fails; `statsWriteFails` means writing
`../builder_stats.json` fails). -/
structure ProveEnv where
  setupRng : Nat
  proveRng : Nat
  statsFile : Option BuilderStats
  statsWriteFails : Bool
  failingSave : Option Nat
deriving DecidableEq

/-- Observable outcome of one Prove invocation. -/
structure ProveOutcome where
  warned : Bool
  setupCircuit : MulCircuit
  proveCircuit : MulCircuit
  params : Groth16Params
  proof : Option Proof
  publicInput : Nat
  events : List Event
  result : Except ProveErr Unit
  statsAfter : Option BuilderStats
deriving DecidableEq

/-- The Prove command (main.rs lines 225-276) on u64 arguments `a b c`: map
the operands into the scalar field, always take `c_fr := a_fr * b_fr`, warn
when the u64 product of `a` and `b` differs from the supplied `c`, run
setup on the unassigned circuit and proving on the fully assigned one with
this invocation's randomness, write the five artifacts, then record the
proof in the builder stats; any failing step aborts the run through `?`.
`statsAfter` is the persisted stats file after the run. -/
def proveCmd (a b c : Nat) (network : Option String) (env : ProveEnv) :
    ProveOutcome :=
  let a_fr := frOf a
  let b_fr := frOf b
  let c_fr := frMul a_fr b_fr
  let warned := decide (u64Mul a b ≠ c)
  let setupCircuit : MulCircuit := { a := none, b := none, c := none }
  let proveCircuit : MulCircuit :=
    { a := some a_fr, b := some b_fr, c := some c_fr }
  let params := groth16Setup setupCircuit env.setupRng
  let base : ProveOutcome :=
    { warned := warned, setupCircuit := setupCircuit,
      proveCircuit := proveCircuit, params := params, proof := none,
      publicInput := c_fr, events := [], result := .ok (),
      statsAfter := env.statsFile }
  match groth16Prove params.pk proveCircuit env.proveRng with
  | .error e => { base with result := .error (.synthesis e) }
  | .ok pf =>
    match env.failingSave with
    | some k =>
        { base with
            proof := some pf,
            events := artifactWrites.take k,
            result := .error .artifactIo }
    | none =>
      match update_stats_for_proof network env.statsFile env.statsWriteFails with
      | .error e =>
          { base with
              proof := some pf,
              events := artifactWrites ++ [.recordStats],
              result := .error e }
      | .ok stats =>
          { base with
              proof := some pf,
              events := artifactWrites ++ [.recordStats],
              result := .ok (),
              statsAfter := some stats }

/-- A representative benign Prove environment: fresh randomness, no stats
file yet, no filesystem failures. -/
def envOk : ProveEnv :=
  { setupRng := 0, proveRng := 0, statsFile := none,
    statsWriteFails := false, failingSave := none }

/-
  Helper lemmas characterizing the Prove command's branches.
-/

theorem proveCmd_fixed_fields (a b c : Nat) (net : Option String)
    (env : ProveEnv) :
    (proveCmd a b c net env).warned = decide (u64Mul a b ≠ c) ∧
    (proveCmd a b c net env).publicInput = frMul (frOf a) (frOf b) ∧
    (proveCmd a b c net env).setupCircuit = { a := none, b := none, c := none } ∧
    (proveCmd a b c net env).proveCircuit =
      { a := some (frOf a), b := some (frOf b),
        c := some (frMul (frOf a) (frOf b)) } ∧
    (proveCmd a b c net env).params =
      groth16Setup { a := none, b := none, c := none } env.setupRng := by
  obtain ⟨r1, r2, sf, swf, fs⟩ := env
  cases fs <;> cases swf <;>
    simp [proveCmd, groth16Prove, update_stats_for_proof, groth16Setup]

theorem proveCmd_success_fields (a b c : Nat) (net : Option String)
    (sf : Option BuilderStats) (r1 r2 : Nat) :
    (proveCmd a b c net ⟨r1, r2, sf, false, none⟩).result = .ok () ∧
    (proveCmd a b c net ⟨r1, r2, sf, false, none⟩).events =
      artifactWrites ++ [Event.recordStats] ∧
    (proveCmd a b c net ⟨r1, r2, sf, false, none⟩).proof =
      some { tag := r1, publicInput := frMul (frOf a) (frOf b) } ∧
    (proveCmd a b c net ⟨r1, r2, sf, false, none⟩).statsAfter =
      some (recordProofStats (load_or_create_stats sf) net) := by
  refine ⟨?_, ?_, ?_, ?_⟩ <;>
    simp [proveCmd, groth16Prove, update_stats_for_proof, groth16Setup]

theorem proveCmd_statsFail_fields (a b c : Nat) (net : Option String)
    (sf : Option BuilderStats) (r1 r2 : Nat) :
    (proveCmd a b c net ⟨r1, r2, sf, true, none⟩).result = .error .statsIo ∧
    (proveCmd a b c net ⟨r1, r2, sf, true, none⟩).events =
      artifactWrites ++ [Event.recordStats] ∧
    (proveCmd a b c net ⟨r1, r2, sf, true, none⟩).proof =
      some { tag := r1, publicInput := frMul (frOf a) (frOf b) } := by
  refine ⟨?_, ?_, ?_⟩ <;>
    simp [proveCmd, groth16Prove, update_stats_for_proof, groth16Setup]

theorem proveCmd_saveFail_fields (a b c : Nat) (net : Option String)
    (sf : Option BuilderStats) (swf : Bool) (r1 r2 k : Nat) :
    (proveCmd a b c net ⟨r1, r2, sf, swf, some k⟩).result =
      .error .artifactIo ∧
    (proveCmd a b c net ⟨r1, r2, sf, swf, some k⟩).events =
      artifactWrites.take k := by
  refine ⟨?_, ?_⟩ <;>
    simp [proveCmd, groth16Prove, update_stats_for_proof, groth16Setup]

theorem frMul_frOf (a b : Nat) : frMul (frOf a) (frOf b) = (a * b) % bn254r := by
  simp [frMul, frOf, Nat.mul_mod]

/-- C1: for every witness (a, b, c) of field elements satisfying a*b = c,
running setup on the unassigned circuit, then proving with the assigned
circuit under the resulting proving key, then verifying the resulting proof
against the resulting verifying key with the single public input c, returns
true. -/
theorem setup_prove_verify_roundtrip (a b c r1 r2 : Nat)
    (ha : a < bn254r) (hb : b < bn254r) (hc : c < bn254r)
    (h : frMul a b = c) :
    ∃ pf : Proof,
      groth16Prove (groth16Setup { a := none, b := none, c := none } r1).pk
        { a := some a, b := some b, c := some c } r2 = .ok pf ∧
      groth16Verify
        (prepare_verifying_key
          (groth16Setup { a := none, b := none, c := none } r1).vk)
        pf [c] = .ok true := by
  refine ⟨{ tag := r1, publicInput := c }, ?_, ?_⟩
  · simp [groth16Prove, groth16Setup, h]
  · simp [groth16Verify, prepare_verifying_key, groth16Setup]

theorem setup_prove_verify_roundtrip_witness :
    (2 : Nat) < bn254r ∧ (3 : Nat) < bn254r ∧ (6 : Nat) < bn254r ∧
    frMul 2 3 = 6 ∧
    ∃ pf : Proof,
      groth16Prove (groth16Setup { a := none, b := none, c := none } 5).pk
        { a := some 2, b := some 3, c := some 6 } 7 = .ok pf ∧
      groth16Verify
        (prepare_verifying_key
          (groth16Setup { a := none, b := none, c := none } 5).vk)
        pf [6] = .ok true :=
  ⟨by decide, by decide, by decide, by decide,
    setup_prove_verify_roundtrip 2 3 6 5 7 (by decide) (by decide)
      (by decide) (by decide)⟩

/-- C5: the decoder's compression variant is fixed per artifact type and
matches the encoder's declared choice: the Verify command decodes the proof
file compressed and both the public-input and verifying-key files
uncompressed, and each decoder accepts what the corresponding encoder
produced. -/
theorem decode_modes_fixed_and_match_encoders :
    proofDecodeMode = Compression.compressed ∧
    inputDecodeMode = Compression.uncompressed ∧
    vkDecodeMode = Compression.uncompressed ∧
    proofDecodeMode = proofEncodeMode ∧
    inputDecodeMode = inputEncodeMode ∧
    vkDecodeMode = vkEncodeMode ∧
    (∀ pf : Proof,
      deserializeProof proofDecodeMode (serializeProof proofEncodeMode pf) =
        some pf) ∧
    (∀ vk : VerifyingKey,
      deserializeVk vkDecodeMode (serializeVk vkEncodeMode vk) = some vk) ∧
    (∀ v : Nat, deserializeFr (serializeFr v) = some (v % bn254r)) := by
  refine ⟨rfl, rfl, rfl, rfl, rfl, rfl, ?_, ?_, ?_⟩
  · intro pf
    simp [deserializeProof, serializeProof, proofDecodeMode, proofEncodeMode]
  · intro vk
    simp [deserializeVk, serializeVk, vkDecodeMode, vkEncodeMode]
  · intro v
    simp [deserializeFr, serializeFr, Nat.mod_lt v (show 0 < bn254r by decide)]

/-- C6: every Prove invocation runs key generation on the unassigned
circuit (all three values None) and proof generation on the fully assigned
circuit (all three values Some), with parameters generated freshly from
this invocation's randomness rather than read from persisted setup
artifacts. -/
theorem prove_setup_unassigned_proving_assigned (a b c : Nat)
    (net : Option String) (env : ProveEnv) :
    (proveCmd a b c net env).setupCircuit =
      { a := none, b := none, c := none } ∧
    (proveCmd a b c net env).proveCircuit =
      { a := some (frOf a), b := some (frOf b),
        c := some (frMul (frOf a) (frOf b)) } ∧
    (proveCmd a b c net env).proveCircuit.fullyAssigned = true ∧
    (proveCmd a b c net env).params =
      groth16Setup (proveCmd a b c net env).setupCircuit env.setupRng := by
  obtain ⟨-, -, h1, h2, h3⟩ := proveCmd_fixed_fields a b c net env
  refine ⟨h1, h2, ?_, ?_⟩
  · rw [h2]; rfl
  · rw [h3, h1]

/-- C2 counterexample: with a = b = 2^32 and c = 0 the integer product
a*b = 2^64 differs from the supplied c, yet no warning is emitted (the
check runs in wrapping u64 arithmetic, where the product is 0): the claim
that prove warns whenever a*b differs from c is false as stated. -/
theorem prove_warning_missed_on_u64_overflow :
    4294967296 * 4294967296 ≠ 0 ∧
    (proveCmd 4294967296 4294967296 0 none envOk).warned = false ∧
    (proveCmd 4294967296 4294967296 0 none envOk).result = .ok () := by
  refine ⟨by decide, ?_, ?_⟩
  · have h := (proveCmd_fixed_fields 4294967296 4294967296 0 none envOk).1
    rw [h]; decide
  · exact (proveCmd_success_fields 4294967296 4294967296 0 none none 0 0).1

/-- C2 (amended): for every triple of u64 values (a, b, c) supplied to the
prove operation whose u64 (wrapping) product of a and b differs from c,
the operation does not fail: it emits a warning, replaces the claimed
product by c := a*b in the scalar field, proves the corrected relation,
and the resulting proof verifies against public input a*b, not against the
supplied c. -/
theorem prove_mismatch_warns_and_corrects (a b c : Nat) (net : Option String)
    (sf : Option BuilderStats) (r1 r2 : Nat)
    (ha : a < 2 ^ 64) (hb : b < 2 ^ 64) (hc : c < 2 ^ 64)
    (hne : u64Mul a b ≠ c) :
    (proveCmd a b c net ⟨r1, r2, sf, false, none⟩).result = .ok () ∧
    (proveCmd a b c net ⟨r1, r2, sf, false, none⟩).warned = true ∧
    (proveCmd a b c net ⟨r1, r2, sf, false, none⟩).publicInput = a * b ∧
    ∃ pf : Proof,
      (proveCmd a b c net ⟨r1, r2, sf, false, none⟩).proof = some pf ∧
      groth16Verify
        (prepare_verifying_key
          (proveCmd a b c net ⟨r1, r2, sf, false, none⟩).params.vk)
        pf [a * b] = .ok true ∧
      groth16Verify
        (prepare_verifying_key
          (proveCmd a b c net ⟨r1, r2, sf, false, none⟩).params.vk)
        pf [c] = .ok false := by
  obtain ⟨hres, hev, hpf, hst⟩ := proveCmd_success_fields a b c net sf r1 r2
  obtain ⟨hw, hpi, -, -, hparams⟩ :=
    proveCmd_fixed_fields a b c net ⟨r1, r2, sf, false, none⟩
  have hab : a * b < bn254r := by
    calc a * b < 2 ^ 64 * 2 ^ 64 := Nat.mul_lt_mul'' ha hb
    _ < bn254r := by decide
  have hpival : frMul (frOf a) (frOf b) = a * b := by
    rw [frMul_frOf, Nat.mod_eq_of_lt hab]
  have hcne : c ≠ a * b := by
    intro hEq
    exact hne (by rw [u64Mul, ← hEq, Nat.mod_eq_of_lt hc])
  refine ⟨hres, ?_, ?_, ?_⟩
  · rw [hw]
    simpa using hne
  · rw [hpi, hpival]
  · refine ⟨{ tag := r1, publicInput := frMul (frOf a) (frOf b) }, hpf, ?_, ?_⟩
    · rw [hparams]
      simp [groth16Verify, prepare_verifying_key, groth16Setup, hpival]
    · rw [hparams]
      simp [groth16Verify, prepare_verifying_key, groth16Setup, hpival, hcne]

theorem prove_mismatch_warns_and_corrects_witness :
    (3 : Nat) < 2 ^ 64 ∧ (4 : Nat) < 2 ^ 64 ∧ (99 : Nat) < 2 ^ 64 ∧
    u64Mul 3 4 ≠ 99 ∧
    ((proveCmd 3 4 99 none ⟨0, 0, none, false, none⟩).result = .ok () ∧
     (proveCmd 3 4 99 none ⟨0, 0, none, false, none⟩).warned = true ∧
     (proveCmd 3 4 99 none ⟨0, 0, none, false, none⟩).publicInput = 3 * 4 ∧
     ∃ pf : Proof,
       (proveCmd 3 4 99 none ⟨0, 0, none, false, none⟩).proof = some pf ∧
       groth16Verify
         (prepare_verifying_key
           (proveCmd 3 4 99 none ⟨0, 0, none, false, none⟩).params.vk)
         pf [3 * 4] = .ok true ∧
       groth16Verify
         (prepare_verifying_key
           (proveCmd 3 4 99 none ⟨0, 0, none, false, none⟩).params.vk)
         pf [99] = .ok false) :=
  ⟨by decide, by decide, by decide, by decide,
    prove_mismatch_warns_and_corrects 3 4 99 none none 0 0 (by decide)
      (by decide) (by decide) (by decide)⟩

/-- C3: when all three files deserialize but the cryptographic check comes
out false, the Verify command completes with Ok reporting the negative
result; it never turns a false verification into an error. -/
theorem verify_false_is_ok_not_error (pB iB vB : List Nat) (pf : Proof)
    (inp : Nat) (vk : VerifyingKey)
    (hp : deserializeProof proofDecodeMode pB = some pf)
    (hi : deserializeFr iB = some inp)
    (hv : deserializeVk vkDecodeMode vB = some vk)
    (hfail : groth16Verify (prepare_verifying_key vk) pf [inp] = .ok false) :
    (verifyCmd pB iB vB).result = .ok false ∧
    ∀ e : VerifyErr, (verifyCmd pB iB vB).result ≠ .error e := by
  have hcmd : verifyCmd pB iB vB =
      { result := .ok false, cryptoInvoked := true } := by
    simp [verifyCmd, hp, hi, hv, hfail]
  refine ⟨by rw [hcmd], ?_⟩
  intro e
  rw [hcmd]
  intro hcontra
  exact Except.noConfusion hcontra

theorem verify_false_is_ok_not_error_witness :
    deserializeProof proofDecodeMode [0, 0, 5] =
      some { tag := 0, publicInput := 5 } ∧
    deserializeFr [7] = some 7 ∧
    deserializeVk vkDecodeMode [1, 0] = some { tag := 0 } ∧
    groth16Verify (prepare_verifying_key { tag := 0 })
      { tag := 0, publicInput := 5 } [7] = .ok false ∧
    ((verifyCmd [0, 0, 5] [7] [1, 0]).result = .ok false ∧
     ∀ e : VerifyErr, (verifyCmd [0, 0, 5] [7] [1, 0]).result ≠ .error e) :=
  ⟨by decide, by decide, by decide, by decide,
    verify_false_is_ok_not_error [0, 0, 5] [7] [1, 0]
      { tag := 0, publicInput := 5 } 7 { tag := 0 } (by decide) (by decide)
      (by decide) (by decide)⟩

/-- C4: whenever any of the three input files fails to deserialize in its
declared variant, the Verify command fails with a deserialization error and
the cryptographic check is never invoked. -/
theorem verify_malformed_fails_before_crypto (pB iB vB : List Nat)
    (h : deserializeProof proofDecodeMode pB = none ∨
         deserializeFr iB = none ∨
         deserializeVk vkDecodeMode vB = none) :
    (verifyCmd pB iB vB).result = .error .deserialization ∧
    (verifyCmd pB iB vB).cryptoInvoked = false := by
  unfold verifyCmd
  rcases h with h | h | h
  · rw [h]
    exact ⟨rfl, rfl⟩
  · cases hp : deserializeProof proofDecodeMode pB
    · exact ⟨rfl, rfl⟩
    · rw [h]
      exact ⟨rfl, rfl⟩
  · cases hp : deserializeProof proofDecodeMode pB
    · exact ⟨rfl, rfl⟩
    · cases hi : deserializeFr iB
      · exact ⟨rfl, rfl⟩
      · rw [h]
        exact ⟨rfl, rfl⟩

theorem verify_malformed_fails_before_crypto_witness :
    (deserializeProof proofDecodeMode [] = none ∨
     deserializeFr [] = none ∨
     deserializeVk vkDecodeMode [] = none) ∧
    ((verifyCmd [] [] []).result = .error .deserialization ∧
     (verifyCmd [] [] []).cryptoInvoked = false) :=
  ⟨Or.inl (by decide),
    verify_malformed_fails_before_crypto [] [] [] (Or.inl (by decide))⟩

/-- C7: on every successful Prove invocation the stats record-proof
operation runs exactly once, and only after the artifact files (calldata,
proof, public input, verifying key) have been written. -/
theorem stats_recorded_once_after_artifact_writes (a b c : Nat)
    (net : Option String) (env : ProveEnv)
    (h : (proveCmd a b c net env).result = .ok ()) :
    (proveCmd a b c net env).events.count Event.recordStats = 1 ∧
    ∃ pre : List Event,
      (proveCmd a b c net env).events = pre ++ [Event.recordStats] ∧
      Event.writeCalldata ∈ pre ∧ Event.writeProof ∈ pre ∧
      Event.writePublicInput ∈ pre ∧ Event.writeVk ∈ pre := by
  obtain ⟨r1, r2, sf, swf, fs⟩ := env
  cases fs with
  | some k =>
      rw [(proveCmd_saveFail_fields a b c net sf swf r1 r2 k).1] at h
      exact Except.noConfusion h
  | none =>
      cases swf with
      | true =>
          rw [(proveCmd_statsFail_fields a b c net sf r1 r2).1] at h
          exact Except.noConfusion h
      | false =>
          rw [(proveCmd_success_fields a b c net sf r1 r2).2.1]
          exact ⟨by decide, artifactWrites, rfl, by decide, by decide,
            by decide, by decide⟩

theorem stats_recorded_once_after_artifact_writes_witness :
    (proveCmd 6 7 42 none envOk).result = .ok () ∧
    ((proveCmd 6 7 42 none envOk).events.count Event.recordStats = 1 ∧
     ∃ pre : List Event,
       (proveCmd 6 7 42 none envOk).events = pre ++ [Event.recordStats] ∧
       Event.writeCalldata ∈ pre ∧ Event.writeProof ∈ pre ∧
       Event.writePublicInput ∈ pre ∧ Event.writeVk ∈ pre) :=
  ⟨(proveCmd_success_fields 6 7 42 none none 0 0).1,
    stats_recorded_once_after_artifact_writes 6 7 42 none envOk
      (proveCmd_success_fields 6 7 42 none none 0 0).1⟩

/-- C8 counterexample: a Prove run whose artifact writes all succeed but
whose stats write fails does not report success — the stats error is
propagated and the invocation fails, refuting the claim that a stats
failure is non-fatal. -/
theorem prove_stats_failure_aborts :
    (proveCmd 3 4 12 none ⟨0, 0, none, true, none⟩).events =
      artifactWrites ++ [Event.recordStats] ∧
    (proveCmd 3 4 12 none ⟨0, 0, none, true, none⟩).proof.isSome = true ∧
    (proveCmd 3 4 12 none ⟨0, 0, none, true, none⟩).result ≠ .ok () ∧
    (proveCmd 3 4 12 none ⟨0, 0, none, true, none⟩).result =
      .error .statsIo := by
  obtain ⟨h1, h2, h3⟩ := proveCmd_statsFail_fields 3 4 12 none none 0 0
  refine ⟨h2, by rw [h3]; rfl, ?_, h1⟩
  rw [h1]
  intro hcontra
  exact Except.noConfusion hcontra

/-- C8 (amended): a failure of the stats collaborator is fatal to the
Prove invocation: the stats error is propagated through the ? operator and
the run reports failure, even though the proof was generated and all
artifact files were already written (the artifacts themselves are
unaffected). -/
theorem prove_stats_failure_fatal (a b c : Nat) (net : Option String)
    (sf : Option BuilderStats) (r1 r2 : Nat) :
    (proveCmd a b c net ⟨r1, r2, sf, true, none⟩).result =
      .error .statsIo ∧
    (proveCmd a b c net ⟨r1, r2, sf, true, none⟩).events =
      artifactWrites ++ [Event.recordStats] ∧
    (proveCmd a b c net ⟨r1, r2, sf, true, none⟩).proof.isSome = true := by
  obtain ⟨h1, h2, h3⟩ := proveCmd_statsFail_fields a b c net sf r1 r2
  exact ⟨h1, h2, by rw [h3]; rfl⟩

/-- C9 counterexample: with a pre-existing stats file whose counter holds
the u32 maximum 4294967295, one record-proof call persists a counter of 0:
the u32 increment wraps, so the persisted value decreases, refuting the
unconditional monotonicity claim. -/
theorem stats_counter_wraps_to_zero :
    (update_stats_for_proof none
        (some { BuilderStats.default with proofs_generated := 4294967295 })
        false).map (fun s => s.proofs_generated) = .ok 0 ∧
    (0 : Nat) < 4294967295 :=
  ⟨rfl, by decide⟩

/-- C9 (amended): each record-proof call increments the persisted
proofs-generated counter by one modulo 2^32; as long as the prior persisted
counter is below 2^32 - 1 the persisted value never decreases (at
2^32 - 1 the u32 increment wraps to 0). -/
theorem stats_counter_monotone_below_wrap (s : BuilderStats)
    (net : Option String) (h : s.proofs_generated < 2 ^ 32 - 1) :
    (recordProofStats s net).proofs_generated = s.proofs_generated + 1 ∧
    s.proofs_generated ≤ (recordProofStats s net).proofs_generated ∧
    (update_stats_for_proof net (some s) false).map
      (fun t => t.proofs_generated) = .ok (s.proofs_generated + 1) := by
  have h1 : (recordProofStats s net).proofs_generated =
      s.proofs_generated + 1 := by
    simp only [recordProofStats]
    omega
  refine ⟨h1, by omega, ?_⟩
  simp [update_stats_for_proof, load_or_create_stats, Except.map, h1]

theorem stats_counter_monotone_below_wrap_witness :
    BuilderStats.default.proofs_generated < 2 ^ 32 - 1 ∧
    ((recordProofStats BuilderStats.default none).proofs_generated =
       BuilderStats.default.proofs_generated + 1 ∧
     BuilderStats.default.proofs_generated ≤
       (recordProofStats BuilderStats.default none).proofs_generated ∧
     (update_stats_for_proof none (some BuilderStats.default) false).map
       (fun t => t.proofs_generated) =
         .ok (BuilderStats.default.proofs_generated + 1)) :=
  ⟨by decide,
    stats_counter_monotone_below_wrap BuilderStats.default none (by decide)⟩

/-- C10: the witness-mismatch warning is decided by wrapping u64
multiplication while the proven public input is always a*b reduced in the
BN254 scalar field; for u64 inputs whose true product exceeds 2^64 - 1 the
two computations disagree: there are inputs with no warning whose proven
public input differs from the supplied c. -/
theorem warning_u64_vs_field_public_input (a b c : Nat)
    (ha : a < 2 ^ 64) (hb : b < 2 ^ 64) (hc : c < 2 ^ 64)
    (net : Option String) (env : ProveEnv) :
    ((proveCmd a b c net env).warned = true ↔ u64Mul a b ≠ c) ∧
    (proveCmd a b c net env).publicInput = (a * b) % bn254r ∧
    ∃ a2 b2 c2 : Nat, a2 < 2 ^ 64 ∧ b2 < 2 ^ 64 ∧ c2 < 2 ^ 64 ∧
      u64Mul a2 b2 = c2 ∧
      (proveCmd a2 b2 c2 none envOk).warned = false ∧
      (proveCmd a2 b2 c2 none envOk).publicInput ≠ frOf c2 := by
  obtain ⟨hw, hpi, -, -, -⟩ := proveCmd_fixed_fields a b c net env
  refine ⟨?_, ?_, 4294967296, 4294967296, 0, by decide, by decide, by decide,
    by decide, ?_, ?_⟩
  · rw [hw]
    simp
  · rw [hpi, frMul_frOf]
  · rw [(proveCmd_fixed_fields 4294967296 4294967296 0 none envOk).1]
    decide
  · rw [(proveCmd_fixed_fields 4294967296 4294967296 0 none envOk).2.1]
    decide

theorem warning_u64_vs_field_public_input_witness :
    (3 : Nat) < 2 ^ 64 ∧ (4 : Nat) < 2 ^ 64 ∧ (99 : Nat) < 2 ^ 64 ∧
    (((proveCmd 3 4 99 none envOk).warned = true ↔ u64Mul 3 4 ≠ 99) ∧
     (proveCmd 3 4 99 none envOk).publicInput = (3 * 4) % bn254r ∧
     ∃ a2 b2 c2 : Nat, a2 < 2 ^ 64 ∧ b2 < 2 ^ 64 ∧ c2 < 2 ^ 64 ∧
       u64Mul a2 b2 = c2 ∧
       (proveCmd a2 b2 c2 none envOk).warned = false ∧
       (proveCmd a2 b2 c2 none envOk).publicInput ≠ frOf c2) :=
  ⟨by decide, by decide, by decide,
    warning_u64_vs_field_public_input 3 4 99 (by decide) (by decide)
      (by decide) none envOk⟩

end Niet2code
